import Mathlib

/-!
Shallow embedding of the RTSP client (src/rtsp.rs) and the RTP/H.264
depacketizer (src/rtp.rs) of the rtsp-rtp-rs repository.

Datagram bytes are modelled as natural numbers (every received byte is
below 256).  A Rust panic (an out-of-range slice index, or a failing
unwrap / expect) is modelled by returning none.  Network input is passed
explicitly: get_rtp receives the content of the 2048-byte scratch buffer
after recv together with the received length, and send receives the text
that the TCP response read produced.
-/

namespace RtspRtp

/-- Rust slice indexing buf[a..b]: defined when a ≤ b ≤ buf.length, a
panic (modelled as none) otherwise. -/
def sliceRange (buf : List Nat) (a b : Nat) : Option (List Nat) :=
  if a ≤ b ∧ b ≤ buf.length then some ((buf.take b).drop a) else none

/-- Rust str::split with a non-empty separator, on character lists.  The
fuel argument (instantiated with the input length) makes the recursion
structural. -/
def splitFuel (sep : List Char) : Nat → List Char → List (List Char)
  | _, [] => [[]]
  | 0, l => [l]
  | fuel + 1, c :: rest =>
    if sep.isPrefixOf (c :: rest) then
      [] :: splitFuel sep fuel ((c :: rest).drop sep.length)
    else
      match splitFuel sep fuel rest with
      | [] => [[c]]
      | h :: t => (c :: h) :: t

/-- Rust str::split on strings (separator assumed non-empty, as in all
uses in the source). -/
def splitOnStr (s sep : String) : List String :=
  if sep.data.isEmpty then [s]
  else (splitFuel sep.data s.data.length s.data).map String.mk

/-- Rust str::contains for a single character. -/
def strContainsChar (s : String) (c : Char) : Bool :=
  s.data.any (fun x => x == c)

/-- Whether the sequence pat occurs inside l. -/
def listContainsSeq (pat l : List Char) : Bool :=
  l.tails.any (fun t => pat.isPrefixOf t)

/-- Rust str::contains for a string pattern. -/
def strContainsStr (s pat : String) : Bool :=
  listContainsSeq pat.data s.data

/-- Strip one trailing carriage return, as Rust str::lines does on every
line that was terminated by a newline. -/
def stripCRChars (l : List Char) : List Char :=
  if l.getLast? = some '\r' then l.dropLast else l

/-- Rust str::lines: split on newline, drop a final empty fragment, and
strip one trailing carriage return from every newline-terminated line. -/
def rustLines (s : String) : List String :=
  let parts := splitFuel ['\n'] s.data.length s.data
  let body := (parts.dropLast).map stripCRChars
  let last := match parts.getLast? with
    | none => []
    | some l => if l.isEmpty then [] else [l]
  (body ++ last).map String.mk

/-- Numeric value of a decimal digit character. -/
def digitVal (c : Char) : Nat := c.toNat - 48

/-- Rust str::parse::<u16>: all-digit non-empty strings whose value fits
in sixteen bits. -/
def parseU16 (s : String) : Option Nat :=
  if s.data ≠ [] ∧ s.data.all Char.isDigit then
    let n := s.data.foldl (fun a c => a * 10 + digitVal c) 0
    if n < 65536 then some n else none
  else none

/-! RTSP client model, from src/rtsp.rs. -/

/-- The RTSP methods the client can send (enum Methods in src/rtsp.rs). -/
inductive Methods where
  | Options
  | Describe
  | Setup
  | Play
  | Teardown
deriving DecidableEq

/-- Method name placed on the request line (the match in Rtsp::send). -/
def methodStr : Methods → String
  | .Options => "OPTIONS"
  | .Describe => "DESCRIBE"
  | .Setup => "SETUP"
  | .Play => "PLAY"
  | .Teardown => "TEARDOWN"

/-- A socket address: std::net::SocketAddr reduced to the parts the core
uses (set_port keeps the ip, Display renders ip:port). -/
structure SockAddr where
  ip : String
  port : Nat
deriving DecidableEq

/-- Display of a socket address, as used by format! in Rtsp::send. -/
def SockAddr.render (a : SockAddr) : String :=
  a.ip ++ ":" ++ toString a.port

/-- The pure state of struct Rtsp (src/rtsp.rs); the TcpStream is
replaced by passing response text into send explicitly. -/
structure RtspS where
  response_ok : Bool
  server_addr_rtp : Option SockAddr
  client_port_rtp : Nat
  server_addr_rtsp : SockAddr
  response_txt : String
  cseq : Nat
  tcp_addr : SockAddr
  transport : String
  track : String
  id : String
deriving DecidableEq

/-- The state Rtsp::new builds (cseq starts at 1, all headers empty). -/
def rtspInit (a : SockAddr) (client_port : Nat) : RtspS :=
  { response_ok := false
    server_addr_rtp := none
    client_port_rtp := client_port
    server_addr_rtsp := a
    response_txt := ""
    cseq := 1
    tcp_addr := a
    transport := ""
    track := ""
    id := "" }

/-- First two elements of the split vector: Rust v[0], v[1] with an index
panic (none) when the second is missing. -/
def splitFirstTwo (l : List String) : Option (String × String) :=
  match l with
  | a :: b :: _ => some (a, b)
  | _ => none

/-- The header map built in Rtsp::parse_setup: every line containing a
colon is split on the first ": "; indexing v[1] panics when a line has a
colon but no ": " separator. -/
def headerPairs : List String → Option (List (String × String))
  | [] => some []
  | line :: rest =>
    if strContainsChar line ':' then
      match splitFirstTwo (splitOnStr line ": ") with
      | none => none
      | some p => (headerPairs rest).map (fun l => p :: l)
    else headerPairs rest

/-- HashMap::get on the collected pairs: with duplicate keys the later
insertion wins, hence the lookup on the reversed list. -/
def hashGet (l : List (String × String)) (k : String) : Option String :=
  (l.reverse.find? (fun p => p.1 == k)).map (fun p => p.2)

/-- The key=value pairs of the Transport header value: split on a
semicolon, keep the tokens containing an equals sign, split each on
the equals sign. -/
def tokenPairs : List String → Option (List (String × String))
  | [] => some []
  | t :: rest =>
    match splitFirstTwo (splitOnStr t "=") with
    | none => none
    | some p => (tokenPairs rest).map (fun l => p :: l)

/-- The Transport sub-map of Rtsp::parse_setup. -/
def transportPairs (v : String) : Option (List (String × String)) :=
  tokenPairs ((splitOnStr v ";").filter (fun t => strContainsChar t '='))

/-- Rtsp::parse_setup: from the response text derive the RTP peer address
(the RTSP address with the port replaced by the low end of server_port)
and the stored session header string self.id.  Failing unwrap / expect
calls and out-of-range indexing are modelled as none. -/
def parse_setup (server_addr_rtsp : SockAddr) (response_txt : String) :
    Option (SockAddr × String) :=
  match headerPairs (rustLines response_txt) with
  | none => none
  | some setup_hash =>
    match hashGet setup_hash "Transport" with
    | none => none
    | some tv =>
      match transportPairs tv with
      | none => none
      | some transport_hash =>
        match hashGet transport_hash "server_port" with
        | none => none
        | some sp =>
          match (splitOnStr sp "-").head? with
          | none => none
          | some lo =>
            match parseU16 lo with
            | none => none
            | some p =>
              match hashGet setup_hash "Session" with
              | none => none
              | some sess =>
                some ({ ip := server_addr_rtsp.ip, port := p },
                      "Session: " ++ sess)

/-- Rtsp::parse_describe: split_once on the blank line; the unwrap panics
(none) when the response has no double CRLF. -/
def parse_describe (response_txt : String) : Option Unit :=
  match splitOnStr response_txt "\r\n\r\n" with
  | _ :: _ :: _ => some ()
  | _ => none

/-- Rtsp::send as a pure function: the response text stands in for the
TCP read.  Returns the successor state together with the request string
that was written, none when a parse step panics. -/
def send (s : RtspS) (method_in : Methods) (response : String) :
    Option (RtspS × String) :=
  let s :=
    match method_in with
    | .Setup =>
      { s with
        transport := "Transport: RTP/AVP/UDP;unicast;client_port=" ++
          toString s.client_port_rtp ++ "-" ++
          toString (s.client_port_rtp + 1) ++ "\r\n"
        track := "/trackID=0\r\n" }
    | .Play => { s with transport := "", track := "" }
    | _ => s
  let request :=
    methodStr method_in ++ " " ++ s.tcp_addr.render ++ s.track ++
    " RTSP/1.0\r\nCSeq: " ++ toString s.cseq ++ "\r\n" ++
    s.transport ++ s.id ++ "\r\n"
  let s := { s with cseq := s.cseq + 1 }
  let s := { s with
    response_ok := strContainsStr response "200 OK"
    response_txt := response }
  match method_in with
  | .Options => some (s, request)
  | .Describe => (parse_describe s.response_txt).map (fun _ => (s, request))
  | .Setup =>
    (parse_setup s.server_addr_rtsp s.response_txt).map
      (fun r => ({ s with server_addr_rtp := some r.1, id := r.2 }, request))
  | .Play => some (s, request)
  | .Teardown => some (s, request)

/-- A sequence of completed send calls: each entry pairs the method with
the response text the server produced; the requests written are
collected in order. -/
def runSends : RtspS → List (Methods × String) → Option (RtspS × List String)
  | s, [] => some (s, [])
  | s, (m, r) :: rest =>
    match send s m r with
    | none => none
    | some (s1, q) =>
      match runSends s1 rest with
      | none => none
      | some (s2, qs) => some (s2, q :: qs)

/-! RTP depacketizer model, from src/rtp.rs. -/

/-- The pure state of struct Rtp (src/rtp.rs): the four byte buffers and
the four booleans.  The UdpSocket and the addresses are I/O handles; the
2048-byte scratch buffer buf_rtp is passed into get_rtp explicitly as
the post-recv buffer content; the openh264 decoder is external and is
passed into try_decode as an oracle. -/
structure Rtp where
  buf_temp : List Nat
  buf_sps : List Nat
  buf_fragments : List Nat
  buf_all : List Nat
  is_sps_found : Bool
  is_start_decoding : Bool
  is_fragment_start : Bool
  is_fragment_end : Bool
deriving DecidableEq

/-- The state Rtp::new builds: empty buffers, all flags false. -/
def rtpInit : Rtp :=
  { buf_temp := []
    buf_sps := []
    buf_fragments := []
    buf_all := []
    is_sps_found := false
    is_start_decoding := false
    is_fragment_start := false
    is_fragment_end := false }

/-- The NAL unit type: low five bits of byte 12 of the receive buffer
(nal_header & 31 in Rtp::get_rtp). -/
def nalType (buf : List Nat) : Nat :=
  buf.getD 12 0 &&& 31

/-- Rtp::get_rtp after the recv call: buf is the content of the
2048-byte scratch buffer (so bytes beyond the datagram length may be
stale), len the received datagram length.  A Rust slice-index panic is
modelled as none. -/
def get_rtp (s : Rtp) (buf : List Nat) (len : Nat) : Option Rtp :=
  let nal_header := buf.getD 12 0
  let nal_header_type := nal_header &&& 31
  if nal_header_type = 7 then
    match sliceRange buf 12 len with
    | none => none
    | some payload =>
      some { s with
        is_sps_found := true
        buf_sps := s.buf_sps ++ [0, 0, 0, 1] ++ payload }
  else if nal_header_type = 8 then
    if s.is_sps_found then
      match sliceRange buf 12 len with
      | none => none
      | some payload =>
        some { s with
          is_start_decoding := true
          buf_temp := s.buf_temp ++ s.buf_sps ++ [0, 0, 0, 1] ++ payload
          buf_sps := [] }
    else some s
  else if nal_header_type = 6 then
    match sliceRange buf 12 len with
    | none => none
    | some payload =>
      some { s with buf_temp := s.buf_temp ++ [0, 0, 1] ++ payload }
  else if nal_header_type = 28 then
    let header_frag := buf.getD 13 0
    if header_frag &&& 64 = 64 then
      match sliceRange buf 14 len with
      | none => none
      | some payload =>
        let new_nal := (header_frag &&& 31) ||| 96
        some { s with
          is_fragment_start := true
          is_fragment_end := true
          buf_temp := s.buf_temp ++ [0, 0, 1] ++ [new_nal] ++
            s.buf_fragments ++ payload
          buf_fragments := [] }
    else
      match sliceRange buf 14 len with
      | none => none
      | some payload =>
        some { s with
          is_fragment_start := true
          buf_fragments := s.buf_fragments ++ payload }
  else
    match sliceRange buf 12 len with
    | none => none
    | some payload =>
      some { s with
        is_sps_found := false
        buf_temp := s.buf_temp ++ [0, 0, 1] ++ payload }

/-- Result of one decoder call: Ok(None), Ok(Some(yuv)) with the frame
abstracted away, or a decoder error. -/
inductive DecodeOutcome where
  | okNone
  | okSome
  | err
deriving DecidableEq

/-- Rtp::try_decode.  The external openh264 decoder is abstracted as an
oracle: dec = none models a missing decoder (connect never called), and
dec = some r models an attached decoder whose call on the current
buf_temp would return r.  The pair holds the successor state and the
returned value. -/
def try_decode (dec : Option DecodeOutcome) (s : Rtp) : Rtp × DecodeOutcome :=
  if s.buf_temp.length = 0 ∨ s.is_start_decoding = false then
    (s, .okNone)
  else if s.is_fragment_start = true ∧ s.is_fragment_end = false then
    (s, .okNone)
  else
    ({ s with
        is_fragment_start := false
        is_fragment_end := false
        buf_all := s.buf_all ++ s.buf_temp
        buf_temp := [] },
     match dec with
     | some r => r
     | none => .err)

/-- One observable interaction with the depacketizer: a UDP receive
(get_rtp on the post-recv buffer content and length) or a try_decode
call with the given decoder oracle. -/
inductive RtpEvent where
  | recv (buf : List Nat) (len : Nat)
  | tryDec (dec : Option DecodeOutcome)
deriving DecidableEq

/-- Effect of one event on the state (a try_decode return value is
discarded; a get_rtp panic aborts the run). -/
def step (s : Rtp) (e : RtpEvent) : Option Rtp :=
  match e with
  | .recv buf len => get_rtp s buf len
  | .tryDec dec => some (try_decode dec s).1

/-- Run a sequence of events from a state. -/
def run (s : Rtp) (evs : List RtpEvent) : Option Rtp :=
  match evs with
  | [] => some s
  | e :: rest =>
    match step s e with
    | none => none
    | some s1 => run s1 rest

/-- Run a sequence of received datagrams (buffer content, length). -/
def recvRun (s : Rtp) (ps : List (List Nat × Nat)) : Option Rtp :=
  run s (ps.map (fun p => RtpEvent.recv p.1 p.2))

/-- Concatenation of the FU-A payloads (bytes 14 to len) of a datagram
sequence. -/
def fragPayloads (ps : List (List Nat × Nat)) : List Nat :=
  (ps.map (fun p => (p.1.take p.2).drop 14)).flatten

/-- Whether an event is a received datagram of the given NAL type. -/
def isRecvTypeB (t : Nat) (e : RtpEvent) : Bool :=
  match e with
  | .recv buf _ => nalType buf == t
  | .tryDec _ => false

/-- The event sequence contains no SPS datagram (type 7) followed later
by a PPS datagram (type 8). -/
def noSpsThenPpsB : List RtpEvent → Bool
  | [] => true
  | e :: rest =>
    (!(isRecvTypeB 7 e) || rest.all (fun x => !(isRecvTypeB 8 x))) &&
      noSpsThenPpsB rest

/-- Ghost bookkeeping carried alongside a run: the number of payload
appends to buf_fragments since buf_fragments was last cleared, the
number of FU-A datagrams received since try_decode last cleared the
fragment flags, and whether an end-bit FU-A datagram was received since
then. -/
structure Ann where
  fragAppends : Nat
  fuSince : Nat
  endSeen : Bool
deriving DecidableEq

/-- The ghost bookkeeping at session start. -/
def annInit : Ann :=
  { fragAppends := 0, fuSince := 0, endSeen := false }

/-- Ghost update for one event, computed from the pre-state: an end-bit
FU-A datagram clears buf_fragments, a non-end FU-A datagram appends to
it, and a try_decode call that passes the gates clears the fragment
flags. -/
def annStep (s : Rtp) (e : RtpEvent) (a : Ann) : Ann :=
  match e with
  | .recv buf _ =>
    if nalType buf = 28 then
      if buf.getD 13 0 &&& 64 = 64 then
        { fragAppends := 0, fuSince := a.fuSince + 1, endSeen := true }
      else
        { fragAppends := a.fragAppends + 1, fuSince := a.fuSince + 1,
          endSeen := a.endSeen }
    else a
  | .tryDec _ =>
    if (s.buf_temp.length = 0 ∨ s.is_start_decoding = false) ∨
        (s.is_fragment_start = true ∧ s.is_fragment_end = false) then a
    else { a with fuSince := 0, endSeen := false }

/-- Run events while carrying the ghost bookkeeping. -/
def runAnn (s : Rtp) (a : Ann) (evs : List RtpEvent) : Option (Rtp × Ann) :=
  match evs with
  | [] => some (s, a)
  | e :: rest =>
    match step s e with
    | none => none
    | some s1 => runAnn s1 (annStep s e a) rest

/-! Spec-side request form for the wire-format claim, written from the
spec words of section 4.1: track is /trackID=0 exactly for SETUP with
no embedded CRLF, the Transport header is present exactly for SETUP,
the session header is a CRLF-terminated line when non-empty, and the
request ends with the mandatory blank line. -/

/-- Track component of the request line as the spec states it. -/
def claimTrack : Methods → String
  | .Setup => "/trackID=0"
  | _ => ""

/-- Transport header as the spec states it (present exactly for SETUP). -/
def claimTransport (s : RtspS) : Methods → String
  | .Setup =>
    "Transport: RTP/AVP/UDP;unicast;client_port=" ++
      toString s.client_port_rtp ++ "-" ++
      toString (s.client_port_rtp + 1) ++ "\r\n"
  | _ => ""

/-- Session header as the spec states it: a CRLF-terminated line once
SETUP has populated the id, empty before. -/
def claimSession (s : RtspS) : String :=
  if s.id = "" then "" else s.id ++ "\r\n"

/-- The wire form the claim asserts for every request produced by send. -/
def claimRequest (s : RtspS) (m : Methods) : String :=
  methodStr m ++ " " ++ s.tcp_addr.render ++ claimTrack m ++
  " RTSP/1.0\r\nCSeq: " ++ toString s.cseq ++ "\r\n" ++
  claimTransport s m ++ claimSession s ++ "\r\n"

/-- Track component the code actually uses for a request: SETUP stores
/trackID=0 with a trailing CRLF, PLAY clears it, the other methods keep
the stored value. -/
def trackFor (s : RtspS) : Methods → String
  | .Setup => "/trackID=0\r\n"
  | .Play => ""
  | _ => s.track

/-- Transport component the code actually uses for a request: SETUP
stores the client_port Transport line, PLAY clears it, the other
methods keep the stored value. -/
def transportFor (s : RtspS) : Methods → String
  | .Setup =>
    "Transport: RTP/AVP/UDP;unicast;client_port=" ++
      toString s.client_port_rtp ++ "-" ++
      toString (s.client_port_rtp + 1) ++ "\r\n"
  | .Play => ""
  | _ => s.transport

/-! Concrete inputs used by the witnesses and counterexamples. -/

/-- The synthetic SETUP response of the claim: Transport with
server_port 6600-6601 and Session 12345678 with a timeout parameter. -/
def c3resp : String :=
  "RTSP/1.0 200 OK\r\nCSeq: 3\r\n" ++
  "Transport: RTP/AVP;unicast;client_port=4588-4589;" ++
  "server_port=6600-6601;ssrc=DEADBEEF;source=10.0.0.1\r\n" ++
  "Session: 12345678;timeout=60\r\n\r\n"

/-- A concrete RTSP server address. -/
def exAddr : SockAddr := { ip := "192.168.1.100", port := 554 }

/-- A fresh client session bound to the example address. -/
def exRtsp : RtspS := rtspInit exAddr 4588

/-- A middle FU-A datagram: type 28 at byte 12, FU header 1 (start and
end bits clear), one payload byte 170, length 15. -/
def c1mid : List Nat × Nat := (List.replicate 12 0 ++ [28, 1, 170], 15)

/-- An end FU-A datagram: type 28 at byte 12, FU header 69 (end bit set,
fragmented type 5), one payload byte 187, length 15. -/
def c1end : List Nat × Nat := (List.replicate 12 0 ++ [28, 69, 187], 15)

/-- A non-IDR slice datagram (NAL type 1), length 13. -/
def c2buf : List Nat := List.replicate 12 0 ++ [1]

/-- An event trace holding one slice datagram and no SPS or PPS. -/
def c2evs : List RtpEvent := [RtpEvent.recv c2buf 13]

/-- The state after receiving the slice datagram: three-byte start code
plus the payload in buf_temp, decoding not armed. -/
def c2s1 : Rtp := { rtpInit with buf_temp := [0, 0, 1, 1] }

/-- A truncated FU-A datagram: the scratch buffer shows type 28 at byte
12, but only 13 bytes were received, so the payload slice 14..13 is out
of range. -/
def c6buf : List Nat := List.replicate 12 0 ++ [28, 0, 0]

/-- An SPS datagram whose byte 12 is 231: F bit set, NRI 11, type 7. -/
def c7buf : List Nat := List.replicate 12 0 ++ [231, 9, 10]

/-- An end FU-A datagram with payload byte 171, length 15. -/
def c8buf : List Nat := List.replicate 12 0 ++ [28, 69, 171]

/-- The state reached by receiving the single end FU-A datagram: the
reassembled NAL (header 101) is in buf_temp, both fragment flags are
set, buf_fragments is empty and was never appended to. -/
def c8state : Rtp :=
  { rtpInit with
    buf_temp := [0, 0, 1, 101, 171]
    is_fragment_start := true
    is_fragment_end := true }

/-- The ghost bookkeeping after that datagram: one FU-A received, an end
bit seen, zero appends to buf_fragments. -/
def c8ann : Ann := { fragAppends := 0, fuSince := 1, endSeen := true }

/-- A state that is armed and holds a pending NAL, with no decoder ever
attached. -/
def c9s : Rtp :=
  { rtpInit with is_start_decoding := true, buf_temp := [0, 0, 1, 1] }

/-- A scratch buffer whose stale byte 12 is 8 (PPS) after a 5-byte
datagram. -/
def c10pps : List Nat := List.replicate 12 0 ++ [8]

/-- A scratch buffer whose stale byte 12 is 6 (SEI) after a 5-byte
datagram. -/
def c10sei : List Nat := List.replicate 12 0 ++ [6]

/-- Two OPTIONS request/response exchanges. -/
def c4ps : List (Methods × String) :=
  [(Methods.Options, "RTSP/1.0 200 OK\r\n\r\n"), (Methods.Options, "x")]

/-- The outcome of running the two OPTIONS exchanges from a fresh
session: cseq has advanced to 3 and the two requests carry CSeq 1 and
CSeq 2. -/
def c4out : RtspS × List String :=
  ({ response_ok := false
     server_addr_rtp := none
     client_port_rtp := 4588
     server_addr_rtsp := exAddr
     response_txt := "x"
     cseq := 3
     tcp_addr := exAddr
     transport := ""
     track := ""
     id := "" },
   ["OPTIONS 192.168.1.100:554 RTSP/1.0\r\nCSeq: 1\r\n\r\n",
    "OPTIONS 192.168.1.100:554 RTSP/1.0\r\nCSeq: 2\r\n\r\n"])

/-- The outcome of one OPTIONS send from a fresh session. -/
def c5out : RtspS × String :=
  ({ response_ok := false
     server_addr_rtp := none
     client_port_rtp := 4588
     server_addr_rtsp := exAddr
     response_txt := "x"
     cseq := 2
     tcp_addr := exAddr
     transport := ""
     track := ""
     id := "" },
   "OPTIONS 192.168.1.100:554 RTSP/1.0\r\nCSeq: 1\r\n\r\n")

/-- The SETUP request the code actually writes from a fresh session:
the stored track suffix embeds a CRLF between /trackID=0 and the
RTSP-version token. -/
def c5setupReq : String :=
  "SETUP 192.168.1.100:554/trackID=0\r\n RTSP/1.0\r\nCSeq: 1\r\n" ++
  "Transport: RTP/AVP/UDP;unicast;client_port=4588-4589\r\n\r\n"

set_option maxRecDepth 100000

/-! Helper lemmas. -/

theorem sliceRange_eq (buf : List Nat) (a b : Nat) (h1 : a ≤ b)
    (h2 : b ≤ buf.length) :
    sliceRange buf a b = some ((buf.take b).drop a) := by
  simp [sliceRange, h1, h2]

theorem sliceRange_none (buf : List Nat) (a b : Nat) (h : b < a) :
    sliceRange buf a b = none := by
  have hn : ¬(a ≤ b ∧ b ≤ buf.length) := by
    rintro ⟨h1, -⟩
    omega
  simp [sliceRange, hn]

theorem run_cons (s : Rtp) (e : RtpEvent) (evs : List RtpEvent) :
    run s (e :: evs) = (step s e).bind (fun s1 => run s1 evs) := by
  cases h : step s e <;> simp [run, h]

theorem run_append (xs ys : List RtpEvent) :
    ∀ s, run s (xs ++ ys) = (run s xs).bind (fun s1 => run s1 ys) := by
  induction xs with
  | nil => intro s; simp [run]
  | cons e rest ih =>
    intro s
    rw [List.cons_append, run_cons, run_cons]
    cases h : step s e with
    | none => simp
    | some s1 => simp [ih s1]

theorem recvRun_cons (s : Rtp) (p : List Nat × Nat)
    (ps : List (List Nat × Nat)) :
    recvRun s (p :: ps) = (get_rtp s p.1 p.2).bind (fun s1 => recvRun s1 ps) := by
  simp only [recvRun, List.map_cons]
  rw [run_cons]
  rfl

theorem recvRun_append (xs ys : List (List Nat × Nat)) (s : Rtp) :
    recvRun s (xs ++ ys) = (recvRun s xs).bind (fun s1 => recvRun s1 ys) := by
  simp only [recvRun, List.map_append]
  exact run_append _ _ s

theorem get_rtp_fua_mid (s : Rtp) (buf : List Nat) (len : Nat)
    (h28 : nalType buf = 28) (he : ¬(buf.getD 13 0 &&& 64 = 64))
    (h1 : 14 ≤ len) (h2 : len ≤ buf.length) :
    get_rtp s buf len = some { s with
      is_fragment_start := true
      buf_fragments := s.buf_fragments ++ (buf.take len).drop 14 } := by
  simp only [nalType] at h28
  simp only [get_rtp, h28, he, sliceRange_eq buf 14 len h1 h2]
  norm_num

theorem get_rtp_fua_end (s : Rtp) (buf : List Nat) (len : Nat)
    (h28 : nalType buf = 28) (he : buf.getD 13 0 &&& 64 = 64)
    (h1 : 14 ≤ len) (h2 : len ≤ buf.length) :
    get_rtp s buf len = some { s with
      is_fragment_start := true
      is_fragment_end := true
      buf_temp := s.buf_temp ++ [0, 0, 1] ++ [(buf.getD 13 0 &&& 31) ||| 96] ++
        s.buf_fragments ++ (buf.take len).drop 14
      buf_fragments := [] } := by
  simp only [nalType] at h28
  simp only [get_rtp, h28, he, sliceRange_eq buf 14 len h1 h2]
  norm_num

theorem fragPayloads_cons (p : List Nat × Nat) (ps : List (List Nat × Nat)) :
    fragPayloads (p :: ps) = (p.1.take p.2).drop 14 ++ fragPayloads ps := by
  simp [fragPayloads]

theorem fua_mid_run (ps : List (List Nat × Nat)) :
    ∀ s : Rtp,
      (∀ p ∈ ps, nalType p.1 = 28 ∧ ¬(p.1.getD 13 0 &&& 64 = 64) ∧
        14 ≤ p.2 ∧ p.2 ≤ p.1.length) →
      recvRun s ps = some { s with
        buf_fragments := s.buf_fragments ++ fragPayloads ps
        is_fragment_start := s.is_fragment_start || !ps.isEmpty } := by
  induction ps with
  | nil => intro s _; simp [recvRun, run, fragPayloads]
  | cons p rest ih =>
    intro s hall
    obtain ⟨h28, he, h1, h2⟩ := hall p (List.mem_cons_self p rest)
    rw [recvRun_cons, get_rtp_fua_mid s p.1 p.2 h28 he h1 h2]
    rw [Option.some_bind]
    rw [ih _ (fun q hq => hall q (List.mem_cons_of_mem p hq))]
    simp [fragPayloads_cons]

/-- Exhaustive inversion of a completed get_rtp call: the seven branches
of the classification, each with the exact successor state. -/
theorem get_rtp_cases (s : Rtp) (buf : List Nat) (len : Nat) (t : Rtp)
    (h : get_rtp s buf len = some t) :
    (nalType buf = 7 ∧ ∃ payload, sliceRange buf 12 len = some payload ∧
      t = { s with is_sps_found := true,
                   buf_sps := s.buf_sps ++ [0, 0, 0, 1] ++ payload })
    ∨ (nalType buf = 8 ∧ s.is_sps_found = true ∧ ∃ payload,
        sliceRange buf 12 len = some payload ∧
        t = { s with is_start_decoding := true,
                     buf_temp := s.buf_temp ++ s.buf_sps ++ [0, 0, 0, 1] ++ payload,
                     buf_sps := [] })
    ∨ (nalType buf = 8 ∧ s.is_sps_found = false ∧ t = s)
    ∨ (nalType buf = 6 ∧ ∃ payload, sliceRange buf 12 len = some payload ∧
        t = { s with buf_temp := s.buf_temp ++ [0, 0, 1] ++ payload })
    ∨ (nalType buf = 28 ∧ buf.getD 13 0 &&& 64 = 64 ∧ ∃ payload,
        sliceRange buf 14 len = some payload ∧
        t = { s with is_fragment_start := true, is_fragment_end := true,
                     buf_temp := s.buf_temp ++ [0, 0, 1] ++
                       [(buf.getD 13 0 &&& 31) ||| 96] ++ s.buf_fragments ++ payload,
                     buf_fragments := [] })
    ∨ (nalType buf = 28 ∧ ¬(buf.getD 13 0 &&& 64 = 64) ∧ ∃ payload,
        sliceRange buf 14 len = some payload ∧
        t = { s with is_fragment_start := true,
                     buf_fragments := s.buf_fragments ++ payload })
    ∨ (nalType buf ≠ 7 ∧ nalType buf ≠ 8 ∧ nalType buf ≠ 6 ∧ nalType buf ≠ 28 ∧
        ∃ payload, sliceRange buf 12 len = some payload ∧
        t = { s with is_sps_found := false,
                     buf_temp := s.buf_temp ++ [0, 0, 1] ++ payload }) := by
  simp only [get_rtp, nalType] at h ⊢
  by_cases h7 : buf.getD 12 0 &&& 31 = 7
  · rw [if_pos h7] at h
    cases hsl : sliceRange buf 12 len with
    | none => rw [hsl] at h; cases h
    | some payload =>
      rw [hsl] at h
      exact Or.inl ⟨h7, payload, rfl, (Option.some.inj h).symm⟩
  · rw [if_neg h7] at h
    by_cases h8 : buf.getD 12 0 &&& 31 = 8
    · rw [if_pos h8] at h
      by_cases hf : s.is_sps_found = true
      · rw [if_pos hf] at h
        cases hsl : sliceRange buf 12 len with
        | none => rw [hsl] at h; cases h
        | some payload =>
          rw [hsl] at h
          exact Or.inr (Or.inl ⟨h8, hf, payload, rfl, (Option.some.inj h).symm⟩)
      · rw [if_neg hf] at h
        exact Or.inr (Or.inr (Or.inl
          ⟨h8, Bool.not_eq_true _ ▸ eq_false_of_ne_true hf, (Option.some.inj h).symm⟩))
    · rw [if_neg h8] at h
      by_cases h6 : buf.getD 12 0 &&& 31 = 6
      · rw [if_pos h6] at h
        cases hsl : sliceRange buf 12 len with
        | none => rw [hsl] at h; cases h
        | some payload =>
          rw [hsl] at h
          exact Or.inr (Or.inr (Or.inr (Or.inl
            ⟨h6, payload, rfl, (Option.some.inj h).symm⟩)))
      · rw [if_neg h6] at h
        by_cases h28 : buf.getD 12 0 &&& 31 = 28
        · rw [if_pos h28] at h
          by_cases he : buf.getD 13 0 &&& 64 = 64
          · rw [if_pos he] at h
            cases hsl : sliceRange buf 14 len with
            | none => rw [hsl] at h; cases h
            | some payload =>
              rw [hsl] at h
              exact Or.inr (Or.inr (Or.inr (Or.inr (Or.inl
                ⟨h28, he, payload, rfl, (Option.some.inj h).symm⟩))))
          · rw [if_neg he] at h
            cases hsl : sliceRange buf 14 len with
            | none => rw [hsl] at h; cases h
            | some payload =>
              rw [hsl] at h
              exact Or.inr (Or.inr (Or.inr (Or.inr (Or.inr (Or.inl
                ⟨h28, he, payload, rfl, (Option.some.inj h).symm⟩)))))
        · rw [if_neg h28] at h
          cases hsl : sliceRange buf 12 len with
          | none => rw [hsl] at h; cases h
          | some payload =>
            rw [hsl] at h
            exact Or.inr (Or.inr (Or.inr (Or.inr (Or.inr (Or.inr
              ⟨h7, h8, h6, h28, payload, rfl, (Option.some.inj h).symm⟩)))))

theorem try_decode_not_armed (dec : Option DecodeOutcome) (s : Rtp)
    (h : s.is_start_decoding = false) : try_decode dec s = (s, .okNone) := by
  simp [try_decode, h]

/-- Along any completed run that starts unarmed with no pending SPS and
whose remaining events never show an SPS before a PPS, the depacketizer
never arms. -/
theorem run_never_armed :
    ∀ (evs : List RtpEvent) (s : Rtp),
      s.is_start_decoding = false →
      (s.is_sps_found = true → evs.all (fun x => !(isRecvTypeB 8 x)) = true) →
      noSpsThenPpsB evs = true →
      ∀ s1, run s evs = some s1 → s1.is_start_decoding = false := by
  intro evs
  induction evs with
  | nil =>
    intro s harm _ _ s1 hr
    cases hr
    exact harm
  | cons e rest ih =>
    intro s harm hfound hno s1 hr
    rw [run_cons] at hr
    rw [noSpsThenPpsB, Bool.and_eq_true] at hno
    cases e with
    | tryDec dec =>
      have hstep : step s (RtpEvent.tryDec dec) = some s := by
        simp [step, try_decode_not_armed dec s harm]
      rw [hstep, Option.some_bind] at hr
      refine ih s harm ?_ hno.2 s1 hr
      intro hf
      have hall := hfound hf
      rw [List.all_cons, Bool.and_eq_true] at hall
      exact hall.2
    | recv buf len =>
      have hstep : step s (RtpEvent.recv buf len) = get_rtp s buf len := rfl
      rw [hstep] at hr
      cases hg : get_rtp s buf len with
      | none => rw [hg] at hr; cases hr
      | some t =>
        rw [hg, Option.some_bind] at hr
        have hrest8 : t.is_sps_found = true →
            rest.all (fun x => !(isRecvTypeB 8 x)) = true := by
          intro htf
          rcases get_rtp_cases s buf len t hg with
            ⟨h7, _, _, ht⟩ | ⟨h8, hf, _, _, ht⟩ | ⟨h8, hf, ht⟩ | ⟨h6, _, _, ht⟩ |
            ⟨h28, _, _, _, ht⟩ | ⟨h28, _, _, _, ht⟩ | ⟨h7, h8, h6, h28, _, _, ht⟩
          · have h7e : isRecvTypeB 7 (RtpEvent.recv buf len) = true := by
              simp [isRecvTypeB, h7]
            have hh := hno.1
            rw [h7e] at hh
            simpa using hh
          · exfalso
            have hall := hfound hf
            rw [List.all_cons, Bool.and_eq_true] at hall
            have h8e : isRecvTypeB 8 (RtpEvent.recv buf len) = true := by
              simp [isRecvTypeB, h8]
            rw [h8e] at hall
            simp at hall
          · subst ht
            have hall := hfound htf
            rw [List.all_cons, Bool.and_eq_true] at hall
            exact hall.2
          · subst ht
            have hall := hfound htf
            rw [List.all_cons, Bool.and_eq_true] at hall
            exact hall.2
          · subst ht
            have hall := hfound htf
            rw [List.all_cons, Bool.and_eq_true] at hall
            exact hall.2
          · subst ht
            have hall := hfound htf
            rw [List.all_cons, Bool.and_eq_true] at hall
            exact hall.2
          · subst ht
            simp at htf
        have harmT : t.is_start_decoding = false := by
          rcases get_rtp_cases s buf len t hg with
            ⟨h7, _, _, ht⟩ | ⟨h8, hf, _, _, ht⟩ | ⟨h8, hf, ht⟩ | ⟨h6, _, _, ht⟩ |
            ⟨h28, _, _, _, ht⟩ | ⟨h28, _, _, _, ht⟩ | ⟨h7, h8, h6, h28, _, _, ht⟩
          · subst ht; exact harm
          · exfalso
            have hall := hfound hf
            rw [List.all_cons, Bool.and_eq_true] at hall
            have h8e : isRecvTypeB 8 (RtpEvent.recv buf len) = true := by
              simp [isRecvTypeB, h8]
            rw [h8e] at hall
            simp at hall
          · subst ht; exact harm
          · subst ht; exact harm
          · subst ht; exact harm
          · subst ht; exact harm
          · subst ht; exact harm
        exact ih t harmT hrest8 hno.2 s1 hr

theorem get_rtp_frag28 (s : Rtp) (buf : List Nat) (len : Nat) (t : Rtp)
    (h : get_rtp s buf len = some t) (h28 : ¬(nalType buf = 28)) :
    t.is_fragment_start = s.is_fragment_start ∧
    t.is_fragment_end = s.is_fragment_end := by
  simp only [get_rtp, nalType] at h
  simp only [nalType] at h28
  by_cases h7 : buf.getD 12 0 &&& 31 = 7
  · rw [if_pos h7] at h
    cases hsl : sliceRange buf 12 len with
    | none => rw [hsl] at h; cases h
    | some payload => rw [hsl] at h; cases h; exact ⟨rfl, rfl⟩
  · rw [if_neg h7] at h
    by_cases h8 : buf.getD 12 0 &&& 31 = 8
    · rw [if_pos h8] at h
      by_cases hf : s.is_sps_found = true
      · rw [if_pos hf] at h
        cases hsl : sliceRange buf 12 len with
        | none => rw [hsl] at h; cases h
        | some payload => rw [hsl] at h; cases h; exact ⟨rfl, rfl⟩
      · rw [if_neg hf] at h; cases h; exact ⟨rfl, rfl⟩
    · rw [if_neg h8] at h
      by_cases h6 : buf.getD 12 0 &&& 31 = 6
      · rw [if_pos h6] at h
        cases hsl : sliceRange buf 12 len with
        | none => rw [hsl] at h; cases h
        | some payload => rw [hsl] at h; cases h; exact ⟨rfl, rfl⟩
      · rw [if_neg h6] at h
        rw [if_neg h28] at h
        cases hsl : sliceRange buf 12 len with
        | none => rw [hsl] at h; cases h
        | some payload => rw [hsl] at h; cases h; exact ⟨rfl, rfl⟩

theorem get_rtp_frag_end_bit (s : Rtp) (buf : List Nat) (len : Nat) (t : Rtp)
    (h : get_rtp s buf len = some t) (h28 : nalType buf = 28) :
    t.is_fragment_start = true ∧
    (buf.getD 13 0 &&& 64 = 64 → t.is_fragment_end = true) ∧
    (¬(buf.getD 13 0 &&& 64 = 64) → t.is_fragment_end = s.is_fragment_end) := by
  simp only [nalType] at h28
  simp only [get_rtp] at h
  have c7 : ¬(buf.getD 12 0 &&& 31 = 7) := by rw [h28]; decide
  have c8 : ¬(buf.getD 12 0 &&& 31 = 8) := by rw [h28]; decide
  have c6 : ¬(buf.getD 12 0 &&& 31 = 6) := by rw [h28]; decide
  rw [if_neg c7, if_neg c8, if_neg c6, if_pos h28] at h
  by_cases he : buf.getD 13 0 &&& 64 = 64
  · rw [if_pos he] at h
    cases hsl : sliceRange buf 14 len with
    | none => rw [hsl] at h; cases h
    | some payload =>
      rw [hsl] at h
      cases h
      exact ⟨rfl, fun _ => rfl, fun hne => absurd he hne⟩
  · rw [if_neg he] at h
    cases hsl : sliceRange buf 14 len with
    | none => rw [hsl] at h; cases h
    | some payload =>
      rw [hsl] at h
      cases h
      exact ⟨rfl, fun hyes => absurd hyes he, fun _ => rfl⟩

/-- The fragment-flag invariant carried through any annotated run. -/
theorem runAnn_frag_inv :
    ∀ (evs : List RtpEvent) (s : Rtp) (a : Ann) (out : Rtp × Ann),
      runAnn s a evs = some out →
      (s.is_fragment_start = true → 1 ≤ a.fuSince) →
      (s.is_fragment_end = true → a.endSeen = true) →
      (out.1.is_fragment_start = true → 1 ≤ out.2.fuSince) ∧
      (out.1.is_fragment_end = true → out.2.endSeen = true) := by
  intro evs
  induction evs with
  | nil =>
    intro s a out hr hs he
    cases hr
    exact ⟨hs, he⟩
  | cons e rest ih =>
    intro s a out hr hs he
    rw [runAnn] at hr
    cases e with
    | recv buf len =>
      cases hg : step s (RtpEvent.recv buf len) with
      | none => rw [hg] at hr; cases hr
      | some t =>
        rw [hg] at hr
        have hget : get_rtp s buf len = some t := hg
        by_cases h28 : nalType buf = 28
        · obtain ⟨hts, hteA, hteB⟩ := get_rtp_frag_end_bit s buf len t hget h28
          by_cases hbit : buf.getD 13 0 &&& 64 = 64
          · have hann : annStep s (RtpEvent.recv buf len) a =
                { fragAppends := 0, fuSince := a.fuSince + 1, endSeen := true } := by
              simp only [annStep]
              rw [if_pos h28, if_pos hbit]
            rw [hann] at hr
            exact ih t _ out hr (fun _ => Nat.succ_le_succ (Nat.zero_le _))
              (fun _ => rfl)
          · have hann : annStep s (RtpEvent.recv buf len) a =
                { fragAppends := a.fragAppends + 1, fuSince := a.fuSince + 1,
                  endSeen := a.endSeen } := by
              simp only [annStep]
              rw [if_pos h28, if_neg hbit]
            rw [hann] at hr
            exact ih t _ out hr (fun _ => Nat.succ_le_succ (Nat.zero_le _))
              (fun hT => he ((hteB hbit) ▸ hT))
        · obtain ⟨hts, hte⟩ := get_rtp_frag28 s buf len t hget h28
          have hann : annStep s (RtpEvent.recv buf len) a = a := by
            simp only [annStep]
            rw [if_neg h28]
          rw [hann] at hr
          exact ih t a out hr (fun hT => hs (hts ▸ hT)) (fun hT => he (hte ▸ hT))
    | tryDec dec =>
      have hstep : step s (RtpEvent.tryDec dec) = some (try_decode dec s).1 := rfl
      rw [hstep] at hr
      by_cases hC1 : s.buf_temp.length = 0 ∨ s.is_start_decoding = false
      · have ht : (try_decode dec s).1 = s := by
          simp only [try_decode, if_pos hC1]
        have hann : annStep s (RtpEvent.tryDec dec) a = a := by
          simp only [annStep, if_pos (Or.inl hC1)]
        rw [ht, hann] at hr
        exact ih s a out hr hs he
      · by_cases hC2 : s.is_fragment_start = true ∧ s.is_fragment_end = false
        · have ht : (try_decode dec s).1 = s := by
            simp only [try_decode, if_neg hC1, if_pos hC2]
          have hann : annStep s (RtpEvent.tryDec dec) a = a := by
            simp only [annStep, if_pos (Or.inr hC2)]
          rw [ht, hann] at hr
          exact ih s a out hr hs he
        · have ht : (try_decode dec s).1 =
              { s with is_fragment_start := false, is_fragment_end := false,
                       buf_all := s.buf_all ++ s.buf_temp, buf_temp := [] } := by
            simp only [try_decode, if_neg hC1, if_neg hC2]
          have hann : annStep s (RtpEvent.tryDec dec) a =
              { a with fuSince := 0, endSeen := false } := by
            have hng : ¬((s.buf_temp.length = 0 ∨ s.is_start_decoding = false) ∨
                (s.is_fragment_start = true ∧ s.is_fragment_end = false)) := by
              intro hh
              rcases hh with hh | hh
              · exact hC1 hh
              · exact hC2 hh
            simp only [annStep, if_neg hng]
          rw [ht, hann] at hr
          refine ih _ _ out hr ?_ ?_
          · intro hT; cases hT
          · intro hT; cases hT

/-- Shape of every completed send: the request string written, the cseq
increment, and preservation of the session id outside SETUP. -/
theorem send_shape (s : RtspS) (m : Methods) (resp : String) (out : RtspS × String)
    (h : send s m resp = some out) :
    out.2 = methodStr m ++ " " ++ s.tcp_addr.render ++ trackFor s m ++
      " RTSP/1.0\r\nCSeq: " ++ toString s.cseq ++ "\r\n" ++
      transportFor s m ++ s.id ++ "\r\n" ∧
    out.1.cseq = s.cseq + 1 ∧
    (m ≠ Methods.Setup → out.1.id = s.id) := by
  cases m with
  | Options =>
    simp only [send] at h
    cases h
    exact ⟨rfl, rfl, fun _ => rfl⟩
  | Describe =>
    simp only [send] at h
    obtain ⟨u, hu, hb⟩ := Option.map_eq_some'.mp h
    cases hb
    exact ⟨rfl, rfl, fun _ => rfl⟩
  | Setup =>
    simp only [send] at h
    obtain ⟨u, hu, hb⟩ := Option.map_eq_some'.mp h
    cases hb
    exact ⟨rfl, rfl, fun hne => absurd rfl hne⟩
  | Play =>
    simp only [send] at h
    cases h
    exact ⟨rfl, rfl, fun _ => rfl⟩
  | Teardown =>
    simp only [send] at h
    cases h
    exact ⟨rfl, rfl, fun _ => rfl⟩

/-- The CSeq value on the k-th request of any completed send sequence is
the starting cseq plus k, and cseq advances by exactly the number of
completed exchanges. -/
theorem runSends_cseq :
    ∀ (ps : List (Methods × String)) (s : RtspS) (out : RtspS × List String),
      runSends s ps = some out →
      out.1.cseq = s.cseq + ps.length ∧ out.2.length = ps.length ∧
      ∀ k, k < ps.length → ∃ x y, out.2.getD k "" =
        x ++ ("CSeq: " ++ toString (s.cseq + k) ++ "\r\n") ++ y := by
  intro ps
  induction ps with
  | nil =>
    intro s out h
    cases h
    refine ⟨by simp, rfl, ?_⟩
    intro k hk
    cases hk
  | cons p rest ih =>
    intro s out h
    obtain ⟨m, r⟩ := p
    rw [runSends] at h
    cases hsend : send s m r with
    | none => rw [hsend] at h; cases h
    | some sq =>
      rw [hsend] at h
      obtain ⟨s1, q⟩ := sq
      dsimp only at h
      cases hrest : runSends s1 rest with
      | none => rw [hrest] at h; cases h
      | some s2qs =>
        rw [hrest] at h
        obtain ⟨s2, qs⟩ := s2qs
        cases h
        obtain ⟨hq, hc, -⟩ := send_shape s m r (s1, q) hsend
        obtain ⟨ihc, ihlen, ihk⟩ := ih s1 (s2, qs) hrest
        dsimp only at hq hc ihc ihlen ihk
        refine ⟨?_, ?_, ?_⟩
        · simp only [List.length_cons]
          rw [ihc, hc]
          omega
        · simp only [List.length_cons, ihlen]
        · intro k hk
          cases k with
          | zero =>
            refine ⟨methodStr m ++ " " ++ s.tcp_addr.render ++ trackFor s m ++
              " RTSP/1.0\r\n", transportFor s m ++ s.id ++ "\r\n", ?_⟩
            simp only [List.getD_cons_zero]
            rw [hq]
            rw [Nat.add_zero]
            have hsplit : (" RTSP/1.0\r\nCSeq: " : String) =
                " RTSP/1.0\r\n" ++ "CSeq: " := rfl
            rw [hsplit]
            simp only [String.append_assoc]
          | succ k =>
            simp only [List.getD_cons_succ]
            have hk2 : k < rest.length := by
              simp only [List.length_cons] at hk
              omega
            obtain ⟨x, y, hxy⟩ := ihk k hk2
            refine ⟨x, y, ?_⟩
            have harg : s.cseq + (k + 1) = s1.cseq + k := by omega
            rw [harg]
            exact hxy

/-! Claim theorems. -/

/-- Claim C1: for an in-order FU-A fragment sequence (any number of
datagrams with the end bit clear carrying payloads A, B, ..., then one
datagram with the end bit set carrying payload C), started with an
empty fragment accumulator, get_rtp appends to nal_current exactly the
three-byte start code, the byte (t and 0x1F) or 0x60 rebuilt from the
end datagram's FU header, then A, B, ..., C (each payload being the
datagram's bytes from offset 14 to its length); buf_fragments is empty
afterwards. -/
theorem fua_reassembly (s : Rtp) (ps : List (List Nat × Nat))
    (pe : List Nat × Nat)
    (hacc : s.buf_fragments = [])
    (hmid : ∀ p ∈ ps, nalType p.1 = 28 ∧ ¬(p.1.getD 13 0 &&& 64 = 64) ∧
      14 ≤ p.2 ∧ p.2 ≤ p.1.length)
    (hend : nalType pe.1 = 28 ∧ pe.1.getD 13 0 &&& 64 = 64 ∧
      14 ≤ pe.2 ∧ pe.2 ≤ pe.1.length) :
    recvRun s (ps ++ [pe]) = some { s with
      buf_temp := s.buf_temp ++ [0, 0, 1] ++ [(pe.1.getD 13 0 &&& 31) ||| 96] ++
        fragPayloads ps ++ (pe.1.take pe.2).drop 14
      buf_fragments := []
      is_fragment_start := true
      is_fragment_end := true } := by
  obtain ⟨h28, he, h1, h2⟩ := hend
  rw [recvRun_append, fua_mid_run ps s hmid, Option.some_bind]
  rw [recvRun_cons]
  rw [get_rtp_fua_end _ pe.1 pe.2 h28 he h1 h2]
  rw [Option.some_bind]
  simp [recvRun, run, hacc]

/-- Claim C1 witness: one middle fragment with payload 170 and one end
fragment with FU type 5 and payload 187 reassemble to the start code,
the header byte 101, then 170 and 187. -/
theorem fua_reassembly_witness :
    recvRun rtpInit [c1mid, c1end] = some { rtpInit with
      buf_temp := [0, 0, 1, 101, 170, 187]
      is_fragment_start := true
      is_fragment_end := true } :=
  fua_reassembly rtpInit [c1mid] c1end rfl (by decide) (by decide)

/-- Claim C2: try_decode returns Ok(None) and leaves the state unchanged
whatever decoder is attached whenever nal_current is empty, decoding is
not armed, or a fragment is open and not completed; and after any event
sequence from a fresh depacketizer that never shows an SPS (type 7)
followed later by a PPS (type 8), every try_decode call returns
Ok(None). -/
theorem try_decode_gating :
    (∀ (s : Rtp) (dec : Option DecodeOutcome),
      s.buf_temp = [] ∨ s.is_start_decoding = false ∨
        (s.is_fragment_start = true ∧ s.is_fragment_end = false) →
      try_decode dec s = (s, DecodeOutcome.okNone))
    ∧ (∀ (evs : List RtpEvent) (s1 : Rtp), noSpsThenPpsB evs = true →
        run rtpInit evs = some s1 →
        ∀ dec, try_decode dec s1 = (s1, DecodeOutcome.okNone)) := by
  constructor
  · intro s dec h
    rcases h with h | h | hfrag
    · simp [try_decode, h]
    · exact try_decode_not_armed dec s h
    · by_cases hC1 : s.buf_temp.length = 0 ∨ s.is_start_decoding = false
      · simp only [try_decode, if_pos hC1]
      · simp only [try_decode, if_neg hC1, if_pos hfrag]
  · intro evs s1 hno hrun dec
    exact try_decode_not_armed dec s1
      (run_never_armed evs rtpInit rfl (fun hh => nomatch hh) hno s1 hrun)

/-- Claim C2 witness: a state with a pending byte but unarmed decoding
is left unchanged with Ok(None), and after one slice datagram (type 1,
no SPS or PPS seen) try_decode with an attached decoder still returns
Ok(None). -/
theorem try_decode_gating_witness :
    try_decode none { rtpInit with buf_temp := [1] } =
      ({ rtpInit with buf_temp := [1] }, DecodeOutcome.okNone) ∧
    try_decode (some DecodeOutcome.okSome) c2s1 = (c2s1, DecodeOutcome.okNone) :=
  ⟨try_decode_gating.1 { rtpInit with buf_temp := [1] } none
      (Or.inr (Or.inl rfl)),
   try_decode_gating.2 c2evs c2s1 (by decide) (by decide)
      (some DecodeOutcome.okSome)⟩

/-- Claim C3 counterexample: on the synthetic SETUP response the parsed
RTP peer is the RTSP host with port 6600, but the stored session header
keeps the timeout parameter: it is Session: 12345678;timeout=60, not
Session: 12345678 as the claim states. -/
theorem parse_setup_counterexample :
    parse_setup exAddr c3resp =
      some ({ ip := "192.168.1.100", port := 6600 },
            "Session: 12345678;timeout=60") ∧
    ("Session: 12345678;timeout=60" : String) ≠ "Session: 12345678" := by
  constructor
  · rfl
  · decide

/-- Claim C3 amended: after parsing the synthetic SETUP response, the
RTP peer address is the RTSP server's IP with port 6600 (the low end of
server_port), and the stored session header is exactly
Session: 12345678;timeout=60 - the timeout suffix is kept verbatim, not
discarded. -/
theorem parse_setup_amended (a : SockAddr) :
    parse_setup a c3resp =
      some ({ ip := a.ip, port := 6600 }, "Session: 12345678;timeout=60") := by
  cases a
  rfl

/-- Claim C4: starting from a fresh session (cseq 1), the k-th request
of any sequence of completed send calls carries the header line CSeq: k
(k starting at 1), and cseq is incremented exactly once per completed
request/response pair, hence strictly increasing. -/
theorem cseq_per_request (a : SockAddr) (p : Nat)
    (ps : List (Methods × String)) (out : RtspS × List String)
    (h : runSends (rtspInit a p) ps = some out) :
    out.1.cseq = 1 + ps.length ∧ out.2.length = ps.length ∧
    ∀ k, k < ps.length → ∃ x y, out.2.getD k "" =
      x ++ ("CSeq: " ++ toString (1 + k) ++ "\r\n") ++ y := by
  have hh := runSends_cseq ps (rtspInit a p) out h
  exact hh

/-- Claim C4 witness: two completed OPTIONS exchanges from a fresh
session leave cseq at 3 and produce requests carrying CSeq 1 and 2. -/
theorem cseq_per_request_witness :
    c4out.1.cseq = 1 + c4ps.length ∧ c4out.2.length = c4ps.length ∧
    ∀ k, k < c4ps.length → ∃ x y, c4out.2.getD k "" =
      x ++ ("CSeq: " ++ toString (1 + k) ++ "\r\n") ++ y :=
  cseq_per_request exAddr 4588 c4ps c4out (by decide)

/-- Claim C5 counterexample: the SETUP request the code writes is not of
the wire form the claim states: the stored track component is
/trackID=0 followed by a CRLF, so the request line embeds a CRLF before
the RTSP-version token. -/
theorem send_wire_counterexample :
    (send exRtsp Methods.Setup c3resp).map Prod.snd = some c5setupReq ∧
    c5setupReq ≠ claimRequest exRtsp Methods.Setup := by
  constructor
  · rfl
  · decide

/-- Claim C5 amended: every request produced by send has the wire form
METHOD, space, server address, track, space, RTSP/1.0 CRLF, CSeq line,
transport component, session id, CRLF - where the track component for
SETUP is /trackID=0 followed by a CRLF (embedding a CRLF inside the
request line), PLAY clears track and transport, other methods reuse the
stored values, and the session id is appended without its own CRLF (so
the request ends with a blank line only when the session id is empty);
the session id is unchanged by every method but SETUP, hence empty
until SETUP populates it. -/
theorem send_wire_form (s : RtspS) (m : Methods) (resp : String)
    (out : RtspS × String) (h : send s m resp = some out) :
    out.2 = methodStr m ++ " " ++ s.tcp_addr.render ++ trackFor s m ++
      " RTSP/1.0\r\nCSeq: " ++ toString s.cseq ++ "\r\n" ++
      transportFor s m ++ s.id ++ "\r\n" ∧
    (m ≠ Methods.Setup → out.1.id = s.id) := by
  obtain ⟨h1, -, h3⟩ := send_shape s m resp out h
  exact ⟨h1, h3⟩

/-- Claim C5 witness: one OPTIONS send from a fresh session writes the
expected request and leaves the empty session id unchanged. -/
theorem send_wire_form_witness :
    c5out.2 = methodStr Methods.Options ++ " " ++ exRtsp.tcp_addr.render ++
      trackFor exRtsp Methods.Options ++ " RTSP/1.0\r\nCSeq: " ++
      toString exRtsp.cseq ++ "\r\n" ++ transportFor exRtsp Methods.Options ++
      exRtsp.id ++ "\r\n" ∧
    (Methods.Options ≠ Methods.Setup → c5out.1.id = exRtsp.id) :=
  send_wire_form exRtsp Methods.Options "x" c5out (by decide)

/-- Claim C6: a datagram classified as FU-A (low five bits of byte 12
equal 28) but shorter than 14 bytes makes the payload slice from offset
14 out of range, so get_rtp panics (none) instead of discarding the
packet silently as the spec requires. -/
theorem get_rtp_fua_short_bug :
    nalType c6buf = 28 ∧ get_rtp rtpInit c6buf 13 = none := by
  constructor
  · rfl
  · rfl

/-- Claim C7: classification looks only at the low five bits of byte
12: any datagram whose byte 12 has low five bits 7 is treated as SPS
regardless of its F and NRI bits - sps_seen is set and the four-byte
start code followed by bytes 12..len is appended to sps_pending. -/
theorem sps_classification (s : Rtp) (buf : List Nat) (len : Nat)
    (h7 : nalType buf = 7) (h1 : 12 ≤ len) (h2 : len ≤ buf.length) :
    get_rtp s buf len = some { s with
      is_sps_found := true
      buf_sps := s.buf_sps ++ [0, 0, 0, 1] ++ (buf.take len).drop 12 } := by
  simp only [nalType] at h7
  have hsl : sliceRange buf 12 len = some ((buf.take len).drop 12) := by
    simp [sliceRange, h1, h2]
  simp only [get_rtp, h7, hsl]
  norm_num

/-- Claim C7 witness: a datagram whose byte 12 is 231 (F bit set, NRI
11, type 7) is still classified as SPS. -/
theorem sps_classification_witness :
    get_rtp rtpInit c7buf 15 = some { rtpInit with
      is_sps_found := true
      buf_sps := [0, 0, 0, 1, 231, 9, 10] } :=
  sps_classification rtpInit c7buf 15 (by decide) (by decide) (by decide)

/-- Claim C8 counterexample: a single end-bit FU-A datagram received
from the fresh state sets fragment_in_progress although no payload was
ever appended to fragment_accum (the ghost append counter is zero),
refuting the claimed invariant. -/
theorem frag_invariant_counterexample :
    runAnn rtpInit annInit [RtpEvent.recv c8buf 15] = some (c8state, c8ann) ∧
    c8state.is_fragment_start = true ∧ c8ann.fragAppends = 0 := by
  refine ⟨?_, rfl, rfl⟩
  rfl

/-- Claim C8 amended: in every state reachable by get_rtp and
try_decode calls, fragment_in_progress implies at least one FU-A
datagram was received since try_decode last cleared the fragment flags,
and fragment_completed implies an FU-A datagram with the end bit set
was received since then (not necessarily the most recent one, and the
datagram that sets the flag may append to nal_current rather than to
fragment_accum). -/
theorem frag_flags_invariant (evs : List RtpEvent) (out : Rtp × Ann)
    (h : runAnn rtpInit annInit evs = some out) :
    (out.1.is_fragment_start = true → 1 ≤ out.2.fuSince) ∧
    (out.1.is_fragment_end = true → out.2.endSeen = true) :=
  runAnn_frag_inv evs rtpInit annInit out h
    (fun hh => nomatch hh) (fun hh => nomatch hh)

/-- Claim C8 witness: after the single end-bit FU-A datagram the
invariant holds with one FU-A received and the end bit seen. -/
theorem frag_flags_invariant_witness :
    (c8state.is_fragment_start = true → 1 ≤ c8ann.fuSince) ∧
    (c8state.is_fragment_end = true → c8ann.endSeen = true) :=
  frag_flags_invariant [RtpEvent.recv c8buf 15] (c8state, c8ann) (by decide)

/-- Claim C9: when decoding is armed, nal_current non-empty and no open
fragment, but no decoder was ever attached, try_decode returns the
error value rather than panicking, and nal_current is cleared exactly
as on a decoder error. -/
theorem try_decode_no_decoder (s : Rtp)
    (h1 : s.is_start_decoding = true) (h2 : s.buf_temp ≠ [])
    (h3 : ¬(s.is_fragment_start = true ∧ s.is_fragment_end = false)) :
    try_decode none s =
      ({ s with
          is_fragment_start := false
          is_fragment_end := false
          buf_all := s.buf_all ++ s.buf_temp
          buf_temp := [] }, DecodeOutcome.err) := by
  have hC1 : ¬(s.buf_temp.length = 0 ∨ s.is_start_decoding = false) := by
    rintro (hh | hh)
    · exact h2 (List.length_eq_zero.mp hh)
    · rw [h1] at hh; cases hh
  simp only [try_decode, if_neg hC1, if_neg h3]

/-- Claim C9 witness: an armed state holding one NAL with no decoder
attached yields the error and a cleared nal_current. -/
theorem try_decode_no_decoder_witness :
    try_decode none c9s =
      ({ rtpInit with
          is_start_decoding := true
          buf_temp := []
          buf_all := [0, 0, 1, 1] }, DecodeOutcome.err) :=
  try_decode_no_decoder c9s rfl (by decide) (by decide)

/-- Claim C10 counterexample: a 5-byte datagram whose stale byte 12
classifies as PPS while no SPS has been seen is ignored without any
slicing, so get_rtp returns successfully instead of panicking as the
claim states for every short datagram classified in the PPS branch. -/
theorem short_datagram_counterexample :
    nalType c10pps = 8 ∧ rtpInit.is_sps_found = false ∧ (5 : Nat) < 12 ∧
    get_rtp rtpInit c10pps 5 = some rtpInit := by
  refine ⟨rfl, rfl, by decide, ?_⟩
  rfl

/-- Claim C10 amended: get_rtp performs no length validation - for
every datagram shorter than 12 bytes whose stale byte 12 classifies it
into the SPS branch, the PPS branch with sps_seen true, the SEI branch,
or the default slice branch, the payload slice 12..len has start
greater than end and get_rtp panics (none); in the PPS branch with
sps_seen false the packet is ignored without slicing and no panic
occurs. -/
theorem get_rtp_short_datagram (s : Rtp) (buf : List Nat) (len : Nat)
    (hshort : len < 12)
    (hbranch : nalType buf = 7 ∨ (nalType buf = 8 ∧ s.is_sps_found = true) ∨
      nalType buf = 6 ∨
      (nalType buf ≠ 7 ∧ nalType buf ≠ 8 ∧ nalType buf ≠ 6 ∧ nalType buf ≠ 28)) :
    get_rtp s buf len = none := by
  have h12 : sliceRange buf 12 len = none := sliceRange_none buf 12 len hshort
  simp only [nalType] at hbranch
  simp only [get_rtp]
  rcases hbranch with h7 | ⟨h8, hf⟩ | h6 | ⟨h7, h8, h6, h28⟩
  · rw [if_pos h7, h12]
  · have c7 : ¬(buf.getD 12 0 &&& 31 = 7) := by rw [h8]; decide
    rw [if_neg c7, if_pos h8, if_pos hf, h12]
  · have c7 : ¬(buf.getD 12 0 &&& 31 = 7) := by rw [h6]; decide
    have c8 : ¬(buf.getD 12 0 &&& 31 = 8) := by rw [h6]; decide
    rw [if_neg c7, if_neg c8, if_pos h6, h12]
  · rw [if_neg h7, if_neg h8, if_neg h6, if_neg h28, h12]

/-- Claim C10 witness: a 5-byte datagram whose stale byte 12 classifies
as SEI drives get_rtp into the out-of-range slice, modelled as none. -/
theorem get_rtp_short_datagram_witness : get_rtp rtpInit c10sei 5 = none :=
  get_rtp_short_datagram rtpInit c10sei 5 (by decide)
    (Or.inr (Or.inr (Or.inl (by decide))))

end RtspRtp
